import Mathlib

/-! The application builder of `baseapp` (builder.go).

A shallow embedding of `AppBuilder` and its registration methods, followed by
the properties of the builder that the specification states.

Modelling conventions.

* Go interface values and pointers that may be nil are `Option`s: `none` is nil.
* Collaborator objects (jobs, stores, servers, clients, metrics providers,
  loggers) are opaque references; the builder only stores and forwards them.
* The builder mutates its own fields and calls methods of collaborators.  The
  first is explicit state passing on `AppBuilder`; the second is recorded, in
  program order, in a log of outgoing calls (`State.calls`).
* Functions of other packages that the builder calls and whose result it uses
  (`telemetry.NewNoopMetrics`, `telemetry.NewMetrics`, `promhttp.Handler`, and
  `New` of this package) are parameters of the definitions that call them.
-/

set_option linter.dupNamespace false

namespace baseapp

/-! ## Collaborator values -/

/-- Reference to a work unit, a value of the interface `job.Basic`. -/
structure Job where
  ref : Nat
deriving DecidableEq, Repr

/-- Reference to a key-value store, a non-nil value of `ethdb.KeyValueStore`. -/
structure KeyValueStore where
  ref : Nat
deriving DecidableEq, Repr

/-- Reference to an HTTP server, a non-nil `*server.Server`. -/
structure Server where
  ref : Nat
deriving DecidableEq, Repr

/-- Reference to a metrics provider, a non-nil value of `telemetry.Metrics`. -/
structure MetricsImpl where
  ref : Nat
deriving DecidableEq, Repr

/-- Interface value of type `telemetry.Metrics`; `none` is the nil interface. -/
abbrev Metrics := Option MetricsImpl

/-- Value of the interface `log.Logger`. -/
structure Logger where
  ref : Nat
deriving DecidableEq, Repr

/-- Value of type `*telemetry.Config`; the builder only hands it to the
constructor of the metrics provider. -/
structure Config where
  ref : Nat
deriving DecidableEq, Repr

/-- Value of type `http.Handler`. -/
structure HTTPHandler where
  ref : Nat
deriving DecidableEq, Repr

/-- Value of type `server.Middleware`. -/
structure Middleware where
  ref : Nat
deriving DecidableEq, Repr

/-- The struct `server.Handler`, with the two fields the builder sets. -/
structure Handler where
  Path : String
  Handler : HTTPHandler
deriving DecidableEq, Repr

/-- Non-nil value of the interface `eth.Client`, by dynamic type: the builder
tests for `*eth.ChainProviderImpl` and treats every other type alike. -/
inductive EthClient where
  | chainProviderImpl (ptr : Nat)
  | otherImpl (dynType : Nat) (ptr : Nat)
deriving DecidableEq, Repr

/-- Go error value, identified by its message. -/
structure Error where
  message : String
deriving DecidableEq, Repr

/-- The function `errors.New`. -/
def errors.New (text : String) : Error := ⟨text⟩

/-! ## Builder state -/

/-- The struct `AppBuilder`. -/
structure AppBuilder where
  appName : String
  jobs : List Job
  db : Option KeyValueStore
  ethClient : Option EthClient
  svr : Option Server
  metrics : Metrics
deriving DecidableEq, Repr

/-- A method call the builder makes on a collaborator object. -/
inductive Call where
  | serverRegisterHandler (svr : Server) (handler : Option Handler)
  | serverRegisterMiddleware (svr : Server) (m : Middleware)
  | enableMetrics (chainProvider : Nat) (metrics : Metrics)
deriving DecidableEq, Repr

/-- The builder together with the log of the calls it has made on
collaborators, oldest first. -/
structure State where
  ab : AppBuilder
  calls : List Call
deriving DecidableEq, Repr

/-! ## Methods -/

/-- The constructor `NewAppBuilder`; `noop` is the value of `telemetry.NewNoopMetrics()`. -/
def NewAppBuilder (noop : Metrics) (appName : String) : AppBuilder :=
  { appName := appName, jobs := [], db := none, ethClient := none, svr := none,
    metrics := noop }

/-- The method `AppName`. -/
def AppName (s : State) : String := s.ab.appName

/-- The method `RegisterJob`. -/
def RegisterJob (job : Job) (s : State) : State :=
  { s with ab := { s.ab with jobs := s.ab.jobs ++ [job] } }

/-- The method `RegisterDB`. -/
def RegisterDB (db : Option KeyValueStore) (s : State) : State :=
  { s with ab := { s.ab with db := db } }

/-- The method `RegisterMetrics`; `NewMetrics` is `telemetry.NewMetrics`, whose
two results are the provider and the error. -/
def RegisterMetrics (NewMetrics : Config → Metrics × Option Error) (cfg : Config)
    (s : State) : Option Error × State :=
  let r := NewMetrics cfg
  let s1 : State := { s with ab := { s.ab with metrics := r.1 } }
  match r.2 with
  | some err => (some err, s1)
  | none =>
    match s1.ab.ethClient with
    | some (EthClient.chainProviderImpl p) =>
      (none, { s1 with calls := s1.calls ++ [Call.enableMetrics p s1.ab.metrics] })
    | _ => (none, s1)

/-- The method `RegisterHTTPServer`. -/
def RegisterHTTPServer (svr : Option Server) (s : State) : State :=
  { s with ab := { s.ab with svr := svr } }

/-- The method `RegisterHTTPHandler`. -/
def RegisterHTTPHandler (handler : Option Handler) (s : State) : Option Error × State :=
  match s.ab.svr with
  | none => (some (errors.New "must enable the HTTP server to register a handler"), s)
  | some svr => (none, { s with calls := s.calls ++ [Call.serverRegisterHandler svr handler] })

/-- The method `RegisterMiddleware`. -/
def RegisterMiddleware (m : Middleware) (s : State) : Option Error × State :=
  match s.ab.svr with
  | none => (some (errors.New "must enable the HTTP server to register middleware"), s)
  | some svr => (none, { s with calls := s.calls ++ [Call.serverRegisterMiddleware svr m] })

/-- The method `RegisterPrometheusTelemetry`; `promHandler` is the value of
`promhttp.Handler()`. -/
def RegisterPrometheusTelemetry (promHandler : HTTPHandler) (s : State) :
    Option Error × State :=
  match s.ab.svr with
  | none => (some (errors.New "must enable the HTTP server to register Prometheus"), s)
  | some _ => RegisterHTTPHandler (some { Path := "/metrics", Handler := promHandler }) s

/-- The method `RegisterEthClient`. -/
def RegisterEthClient (ethClient : Option EthClient) (s : State) : State :=
  { s with ab := { s.ab with ethClient := ethClient } }

/-- The method `BuildApp`; `New` is the constructor of the application, called
with the seven arguments in the order of the source. -/
def BuildApp {App : Type} (New : String → Logger → Option EthClient → List Job →
    Option KeyValueStore → Option Server → Metrics → App) (logger : Logger) (s : State) :
    App × State :=
  (New s.ab.appName logger s.ab.ethClient s.ab.jobs s.ab.db s.ab.svr s.ab.metrics, s)

/-! ## Sequences of registrations -/

/-- The functions of other packages that registrations call. -/
structure Extern where
  NewMetrics : Config → Metrics × Option Error
  promHandler : HTTPHandler

/-- One registration call on the builder, with its argument. -/
inductive Op where
  | registerJob (job : Job)
  | registerDB (db : Option KeyValueStore)
  | registerMetrics (cfg : Config)
  | registerHTTPServer (svr : Option Server)
  | registerHTTPHandler (handler : Option Handler)
  | registerMiddleware (m : Middleware)
  | registerPrometheusTelemetry
  | registerEthClient (ethClient : Option EthClient)
deriving DecidableEq, Repr

/-- Performs one registration; a returned error is dropped, as by a caller that
goes on after a failed registration. -/
def step (X : Extern) (op : Op) (s : State) : State :=
  match op with
  | Op.registerJob job => RegisterJob job s
  | Op.registerDB db => RegisterDB db s
  | Op.registerMetrics cfg => (RegisterMetrics X.NewMetrics cfg s).2
  | Op.registerHTTPServer svr => RegisterHTTPServer svr s
  | Op.registerHTTPHandler handler => (RegisterHTTPHandler handler s).2
  | Op.registerMiddleware m => (RegisterMiddleware m s).2
  | Op.registerPrometheusTelemetry => (RegisterPrometheusTelemetry X.promHandler s).2
  | Op.registerEthClient c => RegisterEthClient c s

/-- Performs the registrations of `ops` from left to right. -/
def runOps (X : Extern) (ops : List Op) (s : State) : State :=
  ops.foldl (fun acc op => step X op acc) s

/-- The work unit that a registration adds, if it is a `RegisterJob`. -/
def Op.job? : Op → Option Job
  | Op.registerJob job => some job
  | _ => none

/-- The arguments of one call of the application constructor `New`. -/
structure NewArgs where
  name : String
  logger : Logger
  ethClient : Option EthClient
  jobs : List Job
  db : Option KeyValueStore
  svr : Option Server
  metrics : Metrics
deriving DecidableEq, Repr

/-- A freshly created builder named `worker` whose no-op provider is the
reference 0, before any call on a collaborator. -/
def freshState : State := ⟨NewAppBuilder (some ⟨0⟩) "worker", []⟩

/-- An instance of the constructor parameter for the examples: it accepts every
configuration and returns the provider with reference 1. -/
def acceptingNewMetrics : Config → Metrics × Option Error :=
  fun _ => (some ⟨1⟩, none)

/-- An instance of the constructor parameter for the examples: it rejects every
configuration, returning a nil provider and an error, as Go constructors do. -/
def rejectingNewMetrics : Config → Metrics × Option Error :=
  fun _ => (none, some (errors.New "invalid telemetry config"))

/-! ## Lemmas on single registrations -/

theorem RegisterHTTPHandler_of_none (handler : Option Handler) (s : State)
    (h : s.ab.svr = none) :
    RegisterHTTPHandler handler s =
      (some (errors.New "must enable the HTTP server to register a handler"), s) := by
  simp [RegisterHTTPHandler, h]

theorem RegisterHTTPHandler_of_some (handler : Option Handler) (s : State) (svr : Server)
    (h : s.ab.svr = some svr) :
    RegisterHTTPHandler handler s =
      (none, { s with calls := s.calls ++ [Call.serverRegisterHandler svr handler] }) := by
  simp [RegisterHTTPHandler, h]

theorem RegisterMiddleware_of_none (m : Middleware) (s : State) (h : s.ab.svr = none) :
    RegisterMiddleware m s =
      (some (errors.New "must enable the HTTP server to register middleware"), s) := by
  simp [RegisterMiddleware, h]

theorem RegisterPrometheusTelemetry_of_none (promHandler : HTTPHandler) (s : State)
    (h : s.ab.svr = none) :
    RegisterPrometheusTelemetry promHandler s =
      (some (errors.New "must enable the HTTP server to register Prometheus"), s) := by
  simp [RegisterPrometheusTelemetry, h]

theorem RegisterPrometheusTelemetry_of_some (promHandler : HTTPHandler) (s : State)
    (svr : Server) (h : s.ab.svr = some svr) :
    RegisterPrometheusTelemetry promHandler s =
      (none, { s with calls := s.calls ++
        [Call.serverRegisterHandler svr (some { Path := "/metrics", Handler := promHandler })] }) := by
  simp [RegisterPrometheusTelemetry, RegisterHTTPHandler, h]

/-- The builder fields after `RegisterMetrics`, whatever the constructor returns:
only the provider is written, and it is written before the error is tested. -/
theorem RegisterMetrics_ab (NewMetrics : Config → Metrics × Option Error) (cfg : Config)
    (s : State) :
    (RegisterMetrics NewMetrics cfg s).2.ab = { s.ab with metrics := (NewMetrics cfg).1 } := by
  unfold RegisterMetrics
  cases h : (NewMetrics cfg).2 with
  | some err => simp [h]
  | none =>
    rcases hc : s.ab.ethClient with _ | c
    · simp [h, hc]
    · cases c <;> simp [h, hc]

/-! ## Lemmas on sequences of registrations -/

theorem step_appName (X : Extern) (op : Op) (s : State) :
    (step X op s).ab.appName = s.ab.appName := by
  cases op <;> simp [step, RegisterJob, RegisterDB, RegisterHTTPServer, RegisterEthClient,
    RegisterMetrics_ab]
  · rename_i handler; cases h : s.ab.svr <;> simp [RegisterHTTPHandler, h]
  · rename_i m; cases h : s.ab.svr <;> simp [RegisterMiddleware, h]
  · cases h : s.ab.svr <;> simp [RegisterPrometheusTelemetry, RegisterHTTPHandler, h]

theorem step_jobs (X : Extern) (op : Op) (s : State) :
    (step X op s).ab.jobs = s.ab.jobs ++ op.job?.toList := by
  cases op <;> simp [step, Op.job?, RegisterJob, RegisterDB, RegisterHTTPServer,
    RegisterEthClient, RegisterMetrics_ab]
  · rename_i handler; cases h : s.ab.svr <;> simp [RegisterHTTPHandler, h]
  · rename_i m; cases h : s.ab.svr <;> simp [RegisterMiddleware, h]
  · cases h : s.ab.svr <;> simp [RegisterPrometheusTelemetry, RegisterHTTPHandler, h]

theorem runOps_nil (X : Extern) (s : State) : runOps X [] s = s := rfl

theorem runOps_cons (X : Extern) (op : Op) (ops : List Op) (s : State) :
    runOps X (op :: ops) s = runOps X ops (step X op s) := rfl

theorem runOps_appName (X : Extern) (ops : List Op) (s : State) :
    (runOps X ops s).ab.appName = s.ab.appName := by
  induction ops generalizing s with
  | nil => rfl
  | cons op ops ih => rw [runOps_cons, ih, step_appName]

theorem runOps_jobs (X : Extern) (ops : List Op) (s : State) :
    (runOps X ops s).ab.jobs = s.ab.jobs ++ ops.filterMap Op.job? := by
  induction ops generalizing s with
  | nil => simp [runOps_nil]
  | cons op ops ih =>
    rw [runOps_cons, ih, step_jobs]
    cases h : op.job? <;> simp [List.filterMap_cons, h]

theorem runOps_map_registerJob_filterMap (us : List Job) :
    (us.map Op.registerJob).filterMap Op.job? = us := by
  induction us with
  | nil => rfl
  | cons u us ih => simp [List.filterMap_cons, Op.job?, ih]

/-- C1: in every builder state in which no HTTP server is registered, each of
`RegisterHTTPHandler`, `RegisterMiddleware` and `RegisterPrometheusTelemetry`
returns an error, and the state after the call (the six builder fields, and the
calls made on collaborators) is the state before the call. -/
theorem unregistered_server_rejects_and_keeps_state (promHandler : HTTPHandler)
    (handler : Option Handler) (m : Middleware) (s : State) (h : s.ab.svr = none) :
    ((RegisterHTTPHandler handler s).1.isSome = true ∧
      (RegisterHTTPHandler handler s).2 = s) ∧
    ((RegisterMiddleware m s).1.isSome = true ∧
      (RegisterMiddleware m s).2 = s) ∧
    ((RegisterPrometheusTelemetry promHandler s).1.isSome = true ∧
      (RegisterPrometheusTelemetry promHandler s).2 = s) := by
  rw [RegisterHTTPHandler_of_none handler s h, RegisterMiddleware_of_none m s h,
    RegisterPrometheusTelemetry_of_none promHandler s h]
  simp

theorem unregistered_server_rejects_witness :
    freshState.ab.svr = none ∧
    (((RegisterHTTPHandler (some ⟨"/health", ⟨3⟩⟩) freshState).1.isSome = true ∧
      (RegisterHTTPHandler (some ⟨"/health", ⟨3⟩⟩) freshState).2 = freshState) ∧
    ((RegisterMiddleware ⟨4⟩ freshState).1.isSome = true ∧
      (RegisterMiddleware ⟨4⟩ freshState).2 = freshState) ∧
    ((RegisterPrometheusTelemetry ⟨5⟩ freshState).1.isSome = true ∧
      (RegisterPrometheusTelemetry ⟨5⟩ freshState).2 = freshState)) :=
  ⟨rfl, unregistered_server_rejects_and_keeps_state ⟨5⟩ (some ⟨"/health", ⟨3⟩⟩) ⟨4⟩
    freshState rfl⟩

/-- C10, as the code has it: with no server registered, `RegisterHTTPHandler`
returns an error with the message "must enable the HTTP server to register a
handler" and `RegisterMiddleware` an error with the message "must enable the
HTTP server to register middleware". -/
theorem unregistered_server_error_messages (handler : Option Handler) (m : Middleware)
    (s : State) (h : s.ab.svr = none) :
    (RegisterHTTPHandler handler s).1 =
      some (errors.New "must enable the HTTP server to register a handler") ∧
    (RegisterMiddleware m s).1 =
      some (errors.New "must enable the HTTP server to register middleware") := by
  rw [RegisterHTTPHandler_of_none handler s h, RegisterMiddleware_of_none m s h]
  exact ⟨rfl, rfl⟩

theorem unregistered_server_error_messages_witness :
    freshState.ab.svr = none ∧
    (RegisterHTTPHandler none freshState).1 =
      some (errors.New "must enable the HTTP server to register a handler") ∧
    (RegisterMiddleware ⟨9⟩ freshState).1 =
      some (errors.New "must enable the HTTP server to register middleware") :=
  ⟨rfl, unregistered_server_error_messages none ⟨9⟩ freshState rfl⟩

/-- C10 fails as stated: on a fresh builder the error of `RegisterHTTPHandler`
does not carry the message "HTTP server not enabled", and the error of
`RegisterMiddleware` is not the error of `RegisterHTTPHandler`. -/
theorem error_message_is_not_the_stated_one :
    (RegisterHTTPHandler none freshState).1 ≠ some (errors.New "HTTP server not enabled") ∧
    (RegisterMiddleware ⟨9⟩ freshState).1 ≠ (RegisterHTTPHandler none freshState).1 := by
  decide

/-! ## The metrics endpoint -/

/-- C8 fails as stated: on a fresh builder `RegisterPrometheusTelemetry` and
`RegisterHTTPHandler` with the `/metrics` handler do not return the same error. -/
theorem prometheus_error_differs_from_handler_error :
    (RegisterPrometheusTelemetry ⟨5⟩ freshState).1 ≠
      (RegisterHTTPHandler (some { Path := "/metrics", Handler := ⟨5⟩ }) freshState).1 := by
  decide

/-- C8, as the code has it: in every builder state `RegisterPrometheusTelemetry`
ends in the same state as `RegisterHTTPHandler` called with the handler bound
to "/metrics" (so it has forwarded that one handler to the server, or nothing),
and it returns an error exactly when no server is registered, as that call
does; the two errors differ in their message. -/
theorem prometheus_agrees_with_handler_up_to_message (promHandler : HTTPHandler) (s : State) :
    (RegisterPrometheusTelemetry promHandler s).2 =
      (RegisterHTTPHandler (some { Path := "/metrics", Handler := promHandler }) s).2 ∧
    (RegisterPrometheusTelemetry promHandler s).1 =
      (if s.ab.svr.isNone then
        some (errors.New "must enable the HTTP server to register Prometheus") else none) ∧
    (RegisterHTTPHandler (some { Path := "/metrics", Handler := promHandler }) s).1 =
      (if s.ab.svr.isNone then
        some (errors.New "must enable the HTTP server to register a handler") else none) ∧
    (RegisterPrometheusTelemetry promHandler s).2.ab = s.ab ∧
    (RegisterPrometheusTelemetry promHandler s).2.calls = s.calls ++
      (s.ab.svr.map fun svr =>
        Call.serverRegisterHandler svr (some { Path := "/metrics", Handler := promHandler })).toList := by
  rcases h : s.ab.svr with _ | svr
  · rw [RegisterPrometheusTelemetry_of_none promHandler s h, RegisterHTTPHandler_of_none _ s h]
    simp
  · rw [RegisterPrometheusTelemetry_of_some promHandler s svr h,
      RegisterHTTPHandler_of_some _ s svr h]
    simp

/-! ## Registration of the metrics provider -/

/-- C4: when the constructor accepts the configuration, `RegisterMetrics`
returns no error and the builder holds the new provider, every other field as
before; on a client of type `ChainProviderImpl` exactly one call of
`EnableMetrics` is made, with the new provider; with no client or a client of
another type no call is made and the client field is as before. -/
theorem RegisterMetrics_accepted (NewMetrics : Config → Metrics × Option Error)
    (cfg : Config) (s : State) (h : (NewMetrics cfg).2 = none) :
    (RegisterMetrics NewMetrics cfg s).1 = none ∧
    (RegisterMetrics NewMetrics cfg s).2.ab = { s.ab with metrics := (NewMetrics cfg).1 } ∧
    (RegisterMetrics NewMetrics cfg s).2.ab.ethClient = s.ab.ethClient ∧
    (∀ p, s.ab.ethClient = some (EthClient.chainProviderImpl p) →
      (RegisterMetrics NewMetrics cfg s).2.calls =
        s.calls ++ [Call.enableMetrics p (NewMetrics cfg).1]) ∧
    ((∀ p, s.ab.ethClient ≠ some (EthClient.chainProviderImpl p)) →
      (RegisterMetrics NewMetrics cfg s).2.calls = s.calls) := by
  refine ⟨?_, RegisterMetrics_ab NewMetrics cfg s, ?_, ?_, ?_⟩
  · unfold RegisterMetrics
    rcases hc : s.ab.ethClient with _ | c
    · simp [h, hc]
    · cases c <;> simp [h, hc]
  · rw [RegisterMetrics_ab]
  · intro p hp
    simp [RegisterMetrics, h, hp]
  · intro hne
    unfold RegisterMetrics
    rcases hc : s.ab.ethClient with _ | c
    · simp [h, hc]
    · cases c with
      | chainProviderImpl p => exact absurd hc (hne p)
      | otherImpl t p => simp [h, hc]

theorem RegisterMetrics_accepted_witness :
    (acceptingNewMetrics ⟨0⟩).2 = none ∧
    (RegisterMetrics acceptingNewMetrics ⟨0⟩
      (RegisterEthClient (some (EthClient.chainProviderImpl 7)) freshState)).1 = none ∧
    (RegisterMetrics acceptingNewMetrics ⟨0⟩
      (RegisterEthClient (some (EthClient.chainProviderImpl 7)) freshState)).2.ab.metrics
        = some ⟨1⟩ ∧
    (RegisterMetrics acceptingNewMetrics ⟨0⟩
      (RegisterEthClient (some (EthClient.chainProviderImpl 7)) freshState)).2.calls
        = [Call.enableMetrics 7 (some ⟨1⟩)] ∧
    (RegisterMetrics acceptingNewMetrics ⟨0⟩
      (RegisterEthClient (some (EthClient.otherImpl 2 7)) freshState)).2.calls = [] :=
  ⟨rfl,
    (RegisterMetrics_accepted acceptingNewMetrics ⟨0⟩
      (RegisterEthClient (some (EthClient.chainProviderImpl 7)) freshState) rfl).1,
    by rw [(RegisterMetrics_accepted acceptingNewMetrics ⟨0⟩
      (RegisterEthClient (some (EthClient.chainProviderImpl 7)) freshState) rfl).2.1]; rfl,
    (RegisterMetrics_accepted acceptingNewMetrics ⟨0⟩
      (RegisterEthClient (some (EthClient.chainProviderImpl 7)) freshState) rfl).2.2.2.1 7 rfl,
    (RegisterMetrics_accepted acceptingNewMetrics ⟨0⟩
      (RegisterEthClient (some (EthClient.otherImpl 2 7)) freshState) rfl).2.2.2.2
        (fun _ hp => nomatch hp)⟩

/-- Whatever the constructor returns next to a rejection, some builder state
holds another provider before the call and that value after it. -/
theorem RegisterMetrics_rejection_changes_some_builder
    (NewMetrics : Config → Metrics × Option Error) (cfg : Config) (name : String) :
    ∃ noop : Metrics,
      (RegisterMetrics NewMetrics cfg ⟨NewAppBuilder noop name, []⟩).2.ab.metrics ≠
        (NewAppBuilder noop name).metrics := by
  rcases hm : (NewMetrics cfg).1 with _ | m
  · exact ⟨some ⟨0⟩, by rw [RegisterMetrics_ab]; simp [hm, NewAppBuilder]⟩
  · exact ⟨none, by rw [RegisterMetrics_ab]; simp [hm, NewAppBuilder]⟩

/-- C2, the code at the failing input: on a fresh builder holding the no-op
provider, a rejected configuration makes `RegisterMetrics` return the error of
the constructor, and the builder then holds the nil provider that the
constructor returned with the error, not the no-op provider. -/
theorem RegisterMetrics_rejected_overwrites_provider :
    (rejectingNewMetrics ⟨0⟩).2 = some (errors.New "invalid telemetry config") ∧
    freshState.ab.metrics = some ⟨0⟩ ∧
    (RegisterMetrics rejectingNewMetrics ⟨0⟩ freshState).1 =
      some (errors.New "invalid telemetry config") ∧
    (RegisterMetrics rejectingNewMetrics ⟨0⟩ freshState).2.ab.metrics = none ∧
    (RegisterMetrics rejectingNewMetrics ⟨0⟩ freshState).2.ab.metrics ≠
      freshState.ab.metrics := by
  decide

/-! ## Forwarding to the server -/

/-- C3: from a new builder, after any sequence of registrations, `BuildApp`
calls the constructor of the application with the name given at creation and,
as work units, exactly the arguments of the `RegisterJob` calls of the sequence
in their order, duplicates included; when the sequence is `RegisterJob` on each
element of a list, the work units passed are that list. -/
theorem build_passes_registered_jobs {App : Type}
    (New : String → Logger → Option EthClient → List Job → Option KeyValueStore →
      Option Server → Metrics → App)
    (X : Extern) (noop : Metrics) (name : String) (logger : Logger) (ops : List Op)
    (us : List Job) :
    (BuildApp New logger (runOps X ops ⟨NewAppBuilder noop name, []⟩)).1 =
      New name logger (runOps X ops ⟨NewAppBuilder noop name, []⟩).ab.ethClient
        (ops.filterMap Op.job?)
        (runOps X ops ⟨NewAppBuilder noop name, []⟩).ab.db
        (runOps X ops ⟨NewAppBuilder noop name, []⟩).ab.svr
        (runOps X ops ⟨NewAppBuilder noop name, []⟩).ab.metrics ∧
    (BuildApp NewArgs.mk logger
      (runOps X (us.map Op.registerJob) ⟨NewAppBuilder noop name, []⟩)).1.jobs = us ∧
    ((BuildApp NewArgs.mk logger
      (runOps X (us.map Op.registerJob) ⟨NewAppBuilder noop name, []⟩)).1.jobs).length
        = us.length := by
  have hj : ∀ l : List Op,
      (runOps X l ⟨NewAppBuilder noop name, []⟩).ab.jobs = l.filterMap Op.job? := by
    intro l
    rw [runOps_jobs]
    simp [NewAppBuilder]
  have hu : (BuildApp NewArgs.mk logger
      (runOps X (us.map Op.registerJob) ⟨NewAppBuilder noop name, []⟩)).1.jobs = us := by
    show (runOps X (us.map Op.registerJob) ⟨NewAppBuilder noop name, []⟩).ab.jobs = us
    rw [hj, runOps_map_registerJob_filterMap]
  refine ⟨?_, hu, by rw [hu]⟩
  show New _ logger _ _ _ _ _ = _
  rw [hj, runOps_appName]
  rfl

/-- C6: `BuildApp` on a freshly created builder calls the constructor of the
application with the name given at creation, the logger given, a nil client, an
empty list of work units, a nil store, a nil server and the no-op provider that
`NewAppBuilder` installed. -/
theorem build_of_fresh_builder {App : Type}
    (New : String → Logger → Option EthClient → List Job → Option KeyValueStore →
      Option Server → Metrics → App)
    (noop : Metrics) (name : String) (logger : Logger) :
    (BuildApp New logger ⟨NewAppBuilder noop name, []⟩).1 =
      New name logger none [] none none noop ∧
    (BuildApp NewArgs.mk logger ⟨NewAppBuilder noop name, []⟩).1 =
      { name := name, logger := logger, ethClient := none, jobs := [], db := none,
        svr := none, metrics := noop } :=
  ⟨rfl, rfl⟩

/-- C7: `BuildApp` leaves the state as it was (every builder field, and no call
on a collaborator), and a second `BuildApp` with the same logger calls the
constructor with the same arguments as the first: the name, work units, store,
client, server and provider of the builder. -/
theorem build_keeps_builder {App : Type}
    (New : String → Logger → Option EthClient → List Job → Option KeyValueStore →
      Option Server → Metrics → App)
    (logger : Logger) (s : State) :
    (BuildApp New logger s).2 = s ∧
    (BuildApp New logger (BuildApp New logger s).2).1 = (BuildApp New logger s).1 ∧
    (BuildApp NewArgs.mk logger (BuildApp New logger s).2).1 =
      (BuildApp NewArgs.mk logger s).1 ∧
    (BuildApp NewArgs.mk logger s).1 =
      { name := s.ab.appName, logger := logger, ethClient := s.ab.ethClient,
        jobs := s.ab.jobs, db := s.ab.db, svr := s.ab.svr, metrics := s.ab.metrics } :=
  ⟨rfl, rfl, rfl, rfl⟩

/-! ## Overwriting and appending -/

/-- C9: `RegisterDB`, `RegisterEthClient` and `RegisterHTTPServer` called twice
leave the state that the second call alone leaves; each writes its own field and
no other, so the work units are as before; `RegisterJob` puts the new work unit
after the ones already registered and changes no other field. -/
theorem setters_overwrite_and_jobs_append (a b : Option KeyValueStore)
    (c d : Option EthClient) (e f : Option Server) (job : Job) (s : State) :
    (RegisterDB b (RegisterDB a s) = RegisterDB b s ∧
      RegisterEthClient d (RegisterEthClient c s) = RegisterEthClient d s ∧
      RegisterHTTPServer f (RegisterHTTPServer e s) = RegisterHTTPServer f s) ∧
    ((RegisterDB a s).ab.db = a ∧ (RegisterDB a s).ab.appName = s.ab.appName ∧
      (RegisterDB a s).ab.jobs = s.ab.jobs ∧ (RegisterDB a s).ab.ethClient = s.ab.ethClient ∧
      (RegisterDB a s).ab.svr = s.ab.svr ∧ (RegisterDB a s).ab.metrics = s.ab.metrics ∧
      (RegisterDB a s).calls = s.calls) ∧
    ((RegisterEthClient c s).ab.ethClient = c ∧
      (RegisterEthClient c s).ab.appName = s.ab.appName ∧
      (RegisterEthClient c s).ab.jobs = s.ab.jobs ∧ (RegisterEthClient c s).ab.db = s.ab.db ∧
      (RegisterEthClient c s).ab.svr = s.ab.svr ∧
      (RegisterEthClient c s).ab.metrics = s.ab.metrics ∧
      (RegisterEthClient c s).calls = s.calls) ∧
    ((RegisterHTTPServer e s).ab.svr = e ∧
      (RegisterHTTPServer e s).ab.appName = s.ab.appName ∧
      (RegisterHTTPServer e s).ab.jobs = s.ab.jobs ∧ (RegisterHTTPServer e s).ab.db = s.ab.db ∧
      (RegisterHTTPServer e s).ab.ethClient = s.ab.ethClient ∧
      (RegisterHTTPServer e s).ab.metrics = s.ab.metrics ∧
      (RegisterHTTPServer e s).calls = s.calls) ∧
    ((RegisterJob job s).ab.jobs = s.ab.jobs ++ [job] ∧
      s.ab.jobs <+: (RegisterJob job s).ab.jobs ∧
      ((RegisterJob job s).ab.jobs).length = s.ab.jobs.length + 1 ∧
      (RegisterJob job s).ab.appName = s.ab.appName ∧ (RegisterJob job s).ab.db = s.ab.db ∧
      (RegisterJob job s).ab.ethClient = s.ab.ethClient ∧
      (RegisterJob job s).ab.svr = s.ab.svr ∧ (RegisterJob job s).ab.metrics = s.ab.metrics ∧
      (RegisterJob job s).calls = s.calls) := by
  refine ⟨⟨rfl, rfl, rfl⟩, ⟨rfl, rfl, rfl, rfl, rfl, rfl, rfl⟩, ⟨rfl, rfl, rfl, rfl, rfl, rfl, rfl⟩,
    ⟨rfl, rfl, rfl, rfl, rfl, rfl, rfl⟩, ⟨rfl, ⟨[job], rfl⟩, ?_, rfl, rfl, rfl, rfl, rfl, rfl⟩⟩
  simp [RegisterJob]

end baseapp
